import Mathlib

/-!
Shallow embedding of the comparison core of the ExcelAnalyzer repository
(src/main.py, class ExcelAnalyzer) and proofs about it.

Data model.  A loaded sheet is a pandas DataFrame.  The embedding keeps a
DataFrame as its list of (already stringified) column names together with its
list of rows, each row a list of cell values aligned with the columns.  A cell
value is the closed variant of dynamically typed values the comparison code
distinguishes: a missing value (NaN), a boolean, an integer and a text cell.
The float and datetime cases of the source are outside the embedding; every
behaviour the theorems below mention is already exercised by these four tags.

The canonical textual representation used by the comparison code is the
Python str() conversion: str(nan) is "nan", str(True) is "True", integers
render in decimal, text renders as itself.  String comparison and string
sorting in Python are lexicographic on code points; the embedding defines
this order directly on the character lists of Lean strings so that every
definition evaluates inside the kernel.
-/

/-- One spreadsheet cell value, as the comparison code in src/main.py
distinguishes them after ingestion. -/
inductive Cell where
  | null
  | bool (b : Bool)
  | int (n : Int)
  | text (s : String)
  deriving DecidableEq

/-- A row of cell values, aligned with the column list of its table. -/
abbrev Row := List Cell

/-- A single sheet: stringified column names plus the ordered rows.
Models the pandas DataFrame the analyzer stores per (file, sheet). -/
structure DataFrame where
  cols : List String
  rows : List Row
  deriving DecidableEq

/-- The Python str() conversion of a cell value: NaN renders as "nan",
booleans as "True"/"False", integers in decimal, text as itself. -/
def cellStr : Cell → String
  | Cell.null => "nan"
  | Cell.bool true => "True"
  | Cell.bool false => "False"
  | Cell.int n => toString n
  | Cell.text s => s

/-- Models pd.isna on a single cell value. -/
def isna : Cell → Bool
  | Cell.null => true
  | _ => false

/-- Models isinstance(v, str). -/
def isTextCell : Cell → Bool
  | Cell.text _ => true
  | _ => false

/-- Lexicographic order on character lists by code point, the comparison
Python uses for strings.  Defined structurally so it evaluates in the
kernel (the Mathlib order on String does not). -/
def charListLe : List Char → List Char → Bool
  | [], _ => true
  | _ :: _, [] => false
  | a :: as, b :: bs =>
    if a.toNat < b.toNat then true
    else if b.toNat < a.toNat then false
    else charListLe as bs

/-- Python string comparison (less or equal), lexicographic on code points. -/
def pyStrLe (a b : String) : Bool := charListLe a.data b.data

/-- The sorting relation for Python sorted() over strings. -/
def strOrder : String → String → Prop := fun a b => pyStrLe a b = true

instance : DecidableRel strOrder := fun a b => instDecidableEqBool (pyStrLe a b) true

/-- Python sorted() over a list of strings. -/
def sortStrings (l : List String) : List String := List.insertionSort strOrder l

/-- The index ordering pandas sort_index applies to key values, extended to
a total order across tags (a homogeneous key column only ever compares
values of one tag; pandas raises on mixed-tag indexes). -/
def cellLt (a b : Cell) : Bool :=
  match a, b with
  | Cell.bool x, Cell.bool y => !x && y
  | Cell.int x, Cell.int y => decide (x < y)
  | Cell.text x, Cell.text y => !(charListLe y.data x.data)
  | Cell.null, Cell.null => false
  | Cell.null, _ => true
  | _, Cell.null => false
  | Cell.bool _, _ => true
  | _, Cell.bool _ => false
  | Cell.int _, _ => true
  | _, Cell.int _ => false

/-- Python sorted(..., key=str) over cell values: sort by the str() image. -/
def sortCellsByStr (l : List Cell) : List Cell :=
  List.insertionSort (fun a b => pyStrLe (cellStr a) (cellStr b) = true) l

/-- Value of row r at the column named c, the way a pandas row Series
indexed by the column list of df resolves the label c
(first matching column; Cell.null when the label is absent). -/
def cellGet (df : DataFrame) (r : Row) (c : String) : Cell :=
  r.getD (df.cols.indexOf c) Cell.null

/-- Cell of table df at row index i, column named c. -/
def cellAt (df : DataFrame) (i : Nat) (c : String) : Cell :=
  cellGet df (df.rows.getD i []) c

/-- The set of (stringified) column names of a table, as the deduplicated
list: models set(str(c) for c in df.columns). -/
def setOfCols (df : DataFrame) : List String := df.cols.dedup

/-- Result of ExcelAnalyzer.compare_columns (src/main.py lines 79 to 99). -/
structure ColumnsResult where
  only_in_first : List String
  only_in_second : List String
  common : List String
  first_columns : List String
  second_columns : List String
  deriving DecidableEq

/-- ExcelAnalyzer.compare_columns: set difference and intersection of the
stringified column names, each sorted ascending. -/
def compare_columns (df1 df2 : DataFrame) : ColumnsResult where
  only_in_first := sortStrings ((setOfCols df1).filter (fun c => !(df2.cols.contains c)))
  only_in_second := sortStrings ((setOfCols df2).filter (fun c => !(df1.cols.contains c)))
  common := sortStrings ((setOfCols df1).filter (fun c => df2.cols.contains c))
  first_columns := df1.cols
  second_columns := df2.cols

/-- Result of ExcelAnalyzer.compare_shape (src/main.py lines 101 to 117). -/
structure ShapeResult where
  first_shape : Nat × Nat
  second_shape : Nat × Nat
  row_diff : Int
  col_diff : Int
  deriving DecidableEq

/-- ExcelAnalyzer.compare_shape: the two shapes and their signed differences. -/
def compare_shape (df1 df2 : DataFrame) : ShapeResult where
  first_shape := (df1.rows.length, df1.cols.length)
  second_shape := (df2.rows.length, df2.cols.length)
  row_diff := (df1.rows.length : Int) - (df2.rows.length : Int)
  col_diff := (df1.cols.length : Int) - (df2.cols.length : Int)

/-- common_cols of compare_cell_diff: sorted(set(df1.columns) ∩ set(df2.columns)). -/
def commonColumns (df1 df2 : DataFrame) : List String :=
  sortStrings ((setOfCols df1).filter (fun c => df2.cols.contains c))

/-- One cell change record of the keyed comparison: the dict
{key_column: key, "Column": col, "File 1 Value": v1, "File 2 Value": v2}. -/
structure KeyChange where
  key : Cell
  column : String
  firstValue : Cell
  secondValue : Cell
  deriving DecidableEq

/-- One cell change record of the positional comparison: the dict
{"Row": row_idx, "Column": col, "File 1 Value": v1, "File 2 Value": v2}. -/
structure PosChange where
  row : Nat
  column : String
  firstValue : Cell
  secondValue : Cell
  deriving DecidableEq

/-- Return value of ExcelAnalyzer.compare_cell_diff: the error dictionary,
the key mode dictionary, or the positional mode dictionary.  The count
fields (total_changes and, in key mode, common_keys_count,
only_first_count, only_second_count) are stored as the source stores them,
lengths of the corresponding lists; total_changes is the length of
cell_changes and is not duplicated as a field. -/
inductive CellDiffResult where
  | error (msg : String)
  | keyed (key_column : String) (rows_only_in_first rows_only_in_second : List Row)
      (cell_changes : List KeyChange)
      (common_keys_count only_first_count only_second_count : Nat)
  | positional (rows_compared : Nat) (cell_changes : List PosChange)
      (extra_rows_in_first extra_rows_in_second : List Row)
  deriving DecidableEq

/-- True exactly on the positional mode result. -/
def isPositionalMode : CellDiffResult → Bool
  | CellDiffResult.positional _ _ _ _ => true
  | _ => false

/-- df.set_index(key_column, drop=False).sort_index(): the rows sorted by
the value of the key column.  The pandas default sort kind is quicksort,
which guarantees no particular order among rows holding equal key values;
the embedding realizes the sort as a deterministic insertion sort, one
admissible outcome of that unspecified tie order.  No theorem below
depends on the order among rows with equal keys. -/
def sortedByKey (df : DataFrame) (key : String) : List Row :=
  List.insertionSort (fun r s => (!(cellLt (cellGet df s key) (cellGet df r key))) = true) df.rows

/-- keys of one side: set(df_keyed.index), the distinct key column values. -/
def keysList (df : DataFrame) (key : String) : List Cell :=
  ((sortedByKey df key).map (fun r => cellGet df r key)).dedup

/-- only_in_first_keys: sorted(keys1 - keys2, key=str). -/
def keysOnlyFirst (df1 df2 : DataFrame) (key : String) : List Cell :=
  sortCellsByStr ((keysList df1 key).filter (fun k => !((keysList df2 key).contains k)))

/-- only_in_second_keys: sorted(keys2 - keys1, key=str). -/
def keysOnlySecond (df1 df2 : DataFrame) (key : String) : List Cell :=
  sortCellsByStr ((keysList df2 key).filter (fun k => !((keysList df1 key).contains k)))

/-- common_keys: sorted(keys1 & keys2, key=str). -/
def commonKeys (df1 df2 : DataFrame) (key : String) : List Cell :=
  sortCellsByStr ((keysList df1 key).filter (fun k => (keysList df2 key).contains k))

/-- compare_cols: the common columns minus the key column. -/
def compareCols (df1 df2 : DataFrame) (key : String) : List String :=
  (commonColumns df1 df2).filter (fun c => c != key)

/-- rows_only_in_first: the rows of the sorted first frame whose key value
is in only_in_first_keys (all duplicate rows included). -/
def rowsOnlyFirst (df1 df2 : DataFrame) (key : String) : List Row :=
  (sortedByKey df1 key).filter (fun r => (keysOnlyFirst df1 df2 key).contains (cellGet df1 r key))

/-- rows_only_in_second, symmetric to rows_only_in_first. -/
def rowsOnlySecond (df1 df2 : DataFrame) (key : String) : List Row :=
  (sortedByKey df2 key).filter (fun r => (keysOnlySecond df1 df2 key).contains (cellGet df2 r key))

/-- df_keyed.loc[[k]].iloc[0]: the first row of the sorted frame whose key
value is k (the empty row when k is absent; never hit on common keys). -/
def keyedRow (df : DataFrame) (key : String) (k : Cell) : Row :=
  ((sortedByKey df key).filter (fun r => cellGet df r key == k)).headD []

/-- The NaN test of the key mode comparison (src/main.py lines 176 to 180):
both values count as NaN only when neither side is a text value and both
are missing. -/
def bothNan (v1 v2 : Cell) : Bool :=
  if !(isTextCell v1) && !(isTextCell v2) then isna v1 && isna v2 else false

/-- One key mode cell comparison (src/main.py lines 181 to 189): emit a
change record unless both sides are NaN or the str() images agree. -/
def keyedCellChange (k : Cell) (c : String) (v1 v2 : Cell) : Option KeyChange :=
  if !(bothNan v1 v2) && (cellStr v1 != cellStr v2) then
    some { key := k, column := c, firstValue := v1, secondValue := v2 }
  else none

/-- The key mode change list: for every common key in ascending str()
order, compare the first occurrence rows column by column. -/
def keyedChanges (df1 df2 : DataFrame) (key : String) : List KeyChange :=
  (commonKeys df1 df2 key).flatMap (fun k =>
    (compareCols df1 df2 key).filterMap (fun c =>
      keyedCellChange k c (cellGet df1 (keyedRow df1 key k) c) (cellGet df2 (keyedRow df2 key k) c)))

/-- The key mode result dictionary of compare_cell_diff. -/
def keyedResult (df1 df2 : DataFrame) (key : String) : CellDiffResult :=
  CellDiffResult.keyed key (rowsOnlyFirst df1 df2 key) (rowsOnlySecond df1 df2 key)
    (keyedChanges df1 df2 key)
    (commonKeys df1 df2 key).length (keysOnlyFirst df1 df2 key).length
    (keysOnlySecond df1 df2 key).length

/-- Projection of a row of df onto the listed columns, in that column
order: one row of df[common_cols]. -/
def projectRow (df : DataFrame) (commonList : List String) (r : Row) : Row :=
  commonList.map (fun c => cellGet df r c)

/-- df[common_cols].iloc[:m].reset_index(drop=True): the projected frame
truncated to the first m rows. -/
def truncatedProjection (df : DataFrame) (commonList : List String) (m : Nat) : List Row :=
  ((df.rows.map (projectRow df commonList)).take m)

/-- df_cmp.at[i, c]: cell of the truncated projected frame at row index i
and column label c. -/
def projCell (df : DataFrame) (commonList : List String) (m : Nat) (i : Nat) (c : String) : Cell :=
  ((truncatedProjection df commonList m).getD i []).getD (commonList.indexOf c) Cell.null

/-- The positional change list (src/main.py lines 209 to 223): for every
row index below the common length and every common column, emit a change
record when the str() casts differ.  The stored values are the cells of
the truncated projected frames, as the source reads them. -/
def posChanges (df1 df2 : DataFrame) (commonList : List String) : List PosChange :=
  let m := min df1.rows.length df2.rows.length
  (List.range m).flatMap (fun i =>
    commonList.filterMap (fun c =>
      let v1 := projCell df1 commonList m i c
      let v2 := projCell df2 commonList m i c
      if cellStr v1 != cellStr v2 then
        some { row := i, column := c, firstValue := v1, secondValue := v2 }
      else none))

/-- df[common_cols].iloc[m:].reset_index(drop=True) when the table is longer
than m rows, else the empty frame. -/
def extraRows (df : DataFrame) (commonList : List String) (m : Nat) : List Row :=
  if df.rows.length > m then (df.rows.map (projectRow df commonList)).drop m else []

/-- The positional mode result dictionary of compare_cell_diff. -/
def positionalResult (df1 df2 : DataFrame) (commonList : List String) : CellDiffResult :=
  let m := min df1.rows.length df2.rows.length
  CellDiffResult.positional m (posChanges df1 df2 commonList)
    (extraRows df1 commonList m) (extraRows df2 commonList m)

/-- ExcelAnalyzer.compare_cell_diff (src/main.py lines 119 to 243).
Key mode runs when a key column is supplied, is a nonempty string (Python
truthiness of the argument) and is a common column; otherwise the
comparison is positional.  With no common columns the error dictionary is
returned before any mode is chosen. -/
def compare_cell_diff (df1 df2 : DataFrame) (keyColumn : Option String) : CellDiffResult :=
  let common := commonColumns df1 df2
  if common.isEmpty then CellDiffResult.error "No common columns to compare."
  else
    match keyColumn with
    | some key =>
      if key != "" && common.contains key then keyedResult df1 df2 key
      else positionalResult df1 df2 common
    | none => positionalResult df1 df2 common

/-- Model of the numeric-literal strings the pandas ingestion parser
converts to numbers: optional sign, then digits with at most one decimal
point and a digit on at least one side (exponent forms never arise in the
theorems below). -/
def numericChars (l : List Char) : Bool :=
  let a := l.takeWhile (fun c => c != '.')
  let b := l.dropWhile (fun c => c != '.')
  match b with
  | [] => !a.isEmpty && a.all Char.isDigit
  | _ :: rest =>
    a.all Char.isDigit && rest.all Char.isDigit && (!a.isEmpty || !rest.isEmpty)

/-- Whether a text cell parses as a number under the ingestion parser. -/
def isNumericString (s : String) : Bool :=
  match s.data with
  | '-' :: rest => numericChars rest
  | '+' :: rest => numericChars rest
  | l => numericChars l

/-- Whether a non-null cell parses as a number: integer cells do, text
cells do exactly when their content is a numeric literal, booleans and
missing values do not (numpy bool is not an np.number dtype). -/
def parsesAsNumber : Cell → Bool
  | Cell.int _ => true
  | Cell.text s => isNumericString s
  | _ => false

/-- The dtype classes compare_stats distinguishes through
select_dtypes(include=[np.number]): numeric, boolean, or object. -/
inductive Dtype where
  | numeric
  | boolean
  | object
  deriving DecidableEq

/-- Dtype the pandas ingestion (read_excel through TextParser) assigns to a
column of cells.  A column with no cells is object.  A column whose every
cell is missing or parses as a number converts to a numeric dtype; in
particular an all-NaN column (empty cells in the sheet) becomes float64,
hence numeric.  An all-boolean column is bool.  Everything else is object. -/
def inferDtype (cells : List Cell) : Dtype :=
  if cells.isEmpty then Dtype.object
  else if cells.all (fun v => isna v || parsesAsNumber v) then Dtype.numeric
  else if cells.all (fun v => isTextCell v == false && isna v == false && parsesAsNumber v == false) then
    Dtype.boolean
  else Dtype.object

/-- The cells of the column named c, top to bottom. -/
def columnCells (df : DataFrame) (c : String) : List Cell :=
  df.rows.map (fun r => cellGet df r c)

/-- set(df.select_dtypes(include=[np.number]).columns): the distinct column
names of numeric dtype. -/
def numericColumns (df : DataFrame) : List String :=
  (setOfCols df).filter (fun c => inferDtype (columnCells df c) == Dtype.numeric)

/-- common_num of compare_stats: sorted(num1 & num2). -/
def commonNumericColumns (df1 df2 : DataFrame) : List String :=
  sortStrings ((numericColumns df1).filter (fun c => (numericColumns df2).contains c))

/-- ExcelAnalyzer.compare_stats (src/main.py lines 245 to 282): none when
there is no common numeric column, otherwise one stats row per common
numeric column in sorted order.  The embedding returns the Column field of
each row; the remaining fields (means, sums, minima, maxima and their
differences) are floating point aggregates outside the scope of the
claims and of the embedding. -/
def compare_stats (df1 df2 : DataFrame) : Option (List String) :=
  let commonNum := commonNumericColumns df1 df2
  if commonNum.isEmpty then none else some commonNum

/-! Heap level view of the four comparator methods.  The analyzer holds its
loaded DataFrames in self.dataframes; the embedding flattens that store to
a list of frames addressed by position.  compare_cell_diff and
compare_stats start by copying the two selected frames (allocating fresh
entries) and then assign the stringified column list in place on the
copies; compare_columns and compare_shape only read.  The second component
of each method is the store after the call. -/

/-- Lookup of a stored frame by position (the empty frame off range). -/
def heapGet (h : List DataFrame) (i : Nat) : DataFrame :=
  h.getD i { cols := [], rows := [] }

/-- The in-place assignment df.columns = [str(c) for c in df.columns].
Column names in the embedding are already strings, on which str is the
identity; the assignment itself is what the heap model tracks. -/
def stringifyColumns (df : DataFrame) : DataFrame :=
  { df with cols := df.cols.map (fun c => c) }

/-- ExcelAnalyzer.compare_columns as a method on the store: reads the two
frames, no copy, no write. -/
def compare_columns_method (h : List DataFrame) (i j : Nat) :
    ColumnsResult × List DataFrame :=
  (compare_columns (heapGet h i) (heapGet h j), h)

/-- ExcelAnalyzer.compare_shape as a method on the store: reads the two
frames, no copy, no write. -/
def compare_shape_method (h : List DataFrame) (i j : Nat) :
    ShapeResult × List DataFrame :=
  (compare_shape (heapGet h i) (heapGet h j), h)

/-- ExcelAnalyzer.compare_cell_diff as a method on the store: copy both
frames, assign stringified columns in place on the copies, then run the
pure comparison on the copies. -/
def compare_cell_diff_method (h : List DataFrame) (i j : Nat)
    (keyColumn : Option String) : CellDiffResult × List DataFrame :=
  let a := h.length
  let h1 := h ++ [heapGet h i]
  let b := h1.length
  let h2 := h1 ++ [heapGet h1 j]
  let h3 := h2.set a (stringifyColumns (heapGet h2 a))
  let h4 := h3.set b (stringifyColumns (heapGet h3 b))
  (compare_cell_diff (heapGet h4 a) (heapGet h4 b) keyColumn, h4)

/-- ExcelAnalyzer.compare_stats as a method on the store: copy both frames,
assign stringified columns in place on the copies, then run the pure
comparison on the copies. -/
def compare_stats_method (h : List DataFrame) (i j : Nat) :
    Option (List String) × List DataFrame :=
  let a := h.length
  let h1 := h ++ [heapGet h i]
  let b := h1.length
  let h2 := h1 ++ [heapGet h1 j]
  let h3 := h2.set a (stringifyColumns (heapGet h2 a))
  let h4 := h3.set b (stringifyColumns (heapGet h3 b))
  (compare_stats (heapGet h4 a) (heapGet h4 b), h4)

/-- The claim of testable property 5 of the specification, at one table:
comparing a table against itself yields empty only-column sets, a
positional result covering all rows with no changes and no extras, and,
for any usable key column, a key mode result in which every key is common
and nothing changed. -/
def selfCompareOk (A : DataFrame) : Prop :=
  (compare_columns A A).only_in_first = [] ∧
  (compare_columns A A).only_in_second = [] ∧
  compare_cell_diff A A none =
    CellDiffResult.positional A.rows.length [] [] [] ∧
  ∀ key : String, key ≠ "" → key ∈ commonColumns A A →
    compare_cell_diff A A (some key) =
      CellDiffResult.keyed key [] [] [] (keysList A key).length 0 0

/-! Order facts about the embedded Python string comparison. -/

theorem charListLe_cons {a b : Char} {as bs : List Char} :
    charListLe (a :: as) (b :: bs) = true ↔
      a.toNat < b.toNat ∨ (a.toNat = b.toNat ∧ charListLe as bs = true) := by
  by_cases h1 : a.toNat < b.toNat
  · simp [charListLe, h1]
  · by_cases h2 : b.toNat < a.toNat
    · have hne : a.toNat ≠ b.toNat := by omega
      simp [charListLe, h1, h2, hne]
    · have heq : a.toNat = b.toNat := by omega
      simp [charListLe, h1, h2, heq]

theorem charListLe_refl (l : List Char) : charListLe l l = true := by
  induction l with
  | nil => rfl
  | cons a as ih => simp [charListLe_cons, ih]

theorem charListLe_total (l1 l2 : List Char) :
    charListLe l1 l2 = true ∨ charListLe l2 l1 = true := by
  induction l1 generalizing l2 with
  | nil => exact Or.inl rfl
  | cons a as ih =>
    cases l2 with
    | nil => exact Or.inr rfl
    | cons b bs =>
      rcases Nat.lt_trichotomy a.toNat b.toNat with h | h | h
      · exact Or.inl (charListLe_cons.mpr (Or.inl h))
      · rcases ih bs with h2 | h2
        · exact Or.inl (charListLe_cons.mpr (Or.inr ⟨h, h2⟩))
        · exact Or.inr (charListLe_cons.mpr (Or.inr ⟨h.symm, h2⟩))
      · exact Or.inr (charListLe_cons.mpr (Or.inl h))

theorem charListLe_trans (l1 : List Char) : ∀ l2 l3,
    charListLe l1 l2 = true → charListLe l2 l3 = true → charListLe l1 l3 = true := by
  induction l1 with
  | nil => intro l2 l3 _ _; rfl
  | cons a as ih =>
    intro l2 l3 h12 h23
    cases l2 with
    | nil => simp [charListLe] at h12
    | cons b bs =>
      cases l3 with
      | nil => simp [charListLe] at h23
      | cons c cs =>
        rw [charListLe_cons] at h12 h23 ⊢
        rcases h12 with h | ⟨he1, hr1⟩
        · rcases h23 with h2 | ⟨he2, _⟩
          · exact Or.inl (by omega)
          · exact Or.inl (by omega)
        · rcases h23 with h2 | ⟨he2, hr2⟩
          · exact Or.inl (by omega)
          · exact Or.inr ⟨by omega, ih bs cs hr1 hr2⟩

theorem charListLe_antisymm (l1 : List Char) : ∀ l2,
    charListLe l1 l2 = true → charListLe l2 l1 = true → l1 = l2 := by
  induction l1 with
  | nil =>
    intro l2 _ h21
    cases l2 with
    | nil => rfl
    | cons b bs => simp [charListLe] at h21
  | cons a as ih =>
    intro l2 h12 h21
    cases l2 with
    | nil => simp [charListLe] at h12
    | cons b bs =>
      rw [charListLe_cons] at h12 h21
      rcases h12 with h | ⟨he1, hr1⟩
      · rcases h21 with h2 | ⟨he2, _⟩
        · omega
        · omega
      · rcases h21 with h2 | ⟨he2, hr2⟩
        · omega
        · have hc : a = b := Char.ext (UInt32.ext he1)
          rw [hc, ih bs hr1 hr2]

theorem strOrder_refl (a : String) : strOrder a a := charListLe_refl a.data

theorem strOrder_total (a b : String) : strOrder a b ∨ strOrder b a :=
  charListLe_total a.data b.data

theorem strOrder_trans {a b c : String} (h1 : strOrder a b) (h2 : strOrder b c) :
    strOrder a c :=
  charListLe_trans a.data b.data c.data h1 h2

theorem strOrder_antisymm {a b : String} (h1 : strOrder a b) (h2 : strOrder b a) :
    a = b :=
  String.ext (charListLe_antisymm a.data b.data h1 h2)

/-! Facts about sortStrings and the column set operations. -/

theorem mem_sortStrings {c : String} {l : List String} :
    c ∈ sortStrings l ↔ c ∈ l :=
  List.mem_insertionSort strOrder

theorem nodup_sortStrings {l : List String} (h : l.Nodup) : (sortStrings l).Nodup :=
  ((List.perm_insertionSort strOrder l).nodup_iff).mpr h

theorem sortStrings_eq_of_mem_iff {l1 l2 : List String} (h1 : l1.Nodup) (h2 : l2.Nodup)
    (hm : ∀ c, c ∈ l1 ↔ c ∈ l2) : sortStrings l1 = sortStrings l2 := by
  haveI : IsTotal String strOrder := ⟨strOrder_total⟩
  haveI : IsTrans String strOrder := ⟨fun _ _ _ => strOrder_trans⟩
  haveI : IsAntisymm String strOrder := ⟨fun _ _ => strOrder_antisymm⟩
  have hperm : (sortStrings l1).Perm (sortStrings l2) := by
    refine (List.perm_ext_iff_of_nodup (nodup_sortStrings h1) (nodup_sortStrings h2)).mpr ?_
    intro c
    rw [mem_sortStrings, mem_sortStrings]
    exact hm c
  exact List.eq_of_perm_of_sorted hperm
    (List.sorted_insertionSort strOrder l1) (List.sorted_insertionSort strOrder l2)

theorem mem_commonColumns {df1 df2 : DataFrame} {c : String} :
    c ∈ commonColumns df1 df2 ↔ c ∈ df1.cols ∧ c ∈ df2.cols := by
  rw [commonColumns, mem_sortStrings, List.mem_filter]
  simp [setOfCols, List.mem_dedup]

theorem nodup_commonColumns (df1 df2 : DataFrame) : (commonColumns df1 df2).Nodup :=
  nodup_sortStrings ((List.nodup_dedup df1.cols).filter _)

theorem commonColumns_nil_iff {df1 df2 : DataFrame} :
    commonColumns df1 df2 = [] ↔ ∀ c, ¬(c ∈ df1.cols ∧ c ∈ df2.cols) := by
  rw [List.eq_nil_iff_forall_not_mem]
  constructor
  · intro h c hc
    exact h c (mem_commonColumns.mpr hc)
  · intro h c hc
    exact h c (mem_commonColumns.mp hc)

/-- C7: structural comparison is symmetric: the columns only in the first
of (A,B) are the columns only in the second of (B,A), and the common
column list of (A,B) equals that of (B,A). -/
theorem structural_symmetry (A B : DataFrame) :
    (compare_columns A B).only_in_first = (compare_columns B A).only_in_second ∧
    (compare_columns A B).only_in_second = (compare_columns B A).only_in_first ∧
    (compare_columns A B).common = (compare_columns B A).common := by
  refine ⟨rfl, rfl, ?_⟩
  show sortStrings ((setOfCols A).filter (fun c => B.cols.contains c)) =
    sortStrings ((setOfCols B).filter (fun c => A.cols.contains c))
  refine sortStrings_eq_of_mem_iff ((List.nodup_dedup A.cols).filter _)
    ((List.nodup_dedup B.cols).filter _) ?_
  intro c
  simp only [List.mem_filter, setOfCols, List.mem_dedup]
  simp [and_comm]

/-- C3: on tables with disjoint column name sets, compare_cell_diff
returns the distinct no-common-columns error dictionary (for any key
argument), not an empty change list. -/
theorem no_common_columns_failure (df1 df2 : DataFrame) (keyColumn : Option String)
    (h : ∀ c, ¬(c ∈ df1.cols ∧ c ∈ df2.cols)) :
    compare_cell_diff df1 df2 keyColumn =
      CellDiffResult.error "No common columns to compare." := by
  have hnil : commonColumns df1 df2 = [] := commonColumns_nil_iff.mpr h
  simp [compare_cell_diff, hnil]

/-- Witness for no_common_columns_failure at concrete disjoint tables. -/
theorem no_common_columns_failure_witness :
    (∀ c : String, ¬(c ∈ (DataFrame.mk ["a"] []).cols ∧ c ∈ (DataFrame.mk ["b"] []).cols)) ∧
    compare_cell_diff (DataFrame.mk ["a"] []) (DataFrame.mk ["b"] []) none =
      CellDiffResult.error "No common columns to compare." := by
  have h : ∀ c : String,
      ¬(c ∈ (DataFrame.mk ["a"] []).cols ∧ c ∈ (DataFrame.mk ["b"] []).cols) := by
    intro c hc
    rcases hc with ⟨h1, h2⟩
    simp only [List.mem_singleton] at h1 h2
    rw [h1] at h2
    exact absurd h2 (by decide)
  exact ⟨h, no_common_columns_failure _ _ none h⟩

/-- Counterexample to C4 as stated: with disjoint column sets and a
supplied key column (necessarily outside the empty common set), the call
returns the no-common-columns error dictionary, not a positional result. -/
theorem key_fallback_cex :
    compare_cell_diff (DataFrame.mk ["a"] []) (DataFrame.mk ["b"] []) (some "a") =
      CellDiffResult.error "No common columns to compare." ∧
    ("a" : String) ∉ commonColumns (DataFrame.mk ["a"] []) (DataFrame.mk ["b"] []) ∧
    isPositionalMode
      (compare_cell_diff (DataFrame.mk ["a"] []) (DataFrame.mk ["b"] []) (some "a")) =
      false := by decide

/-- C4 (amended): on tables with at least one common column, a missing key
column or a supplied key column outside the common set makes
compare_cell_diff fall back to the positional comparison and return the
positional result. -/
theorem key_fallback_positional (df1 df2 : DataFrame) (keyColumn : Option String)
    (hc : commonColumns df1 df2 ≠ [])
    (hk : keyColumn = none ∨
      ∃ k, keyColumn = some k ∧ k ∉ commonColumns df1 df2) :
    compare_cell_diff df1 df2 keyColumn =
      positionalResult df1 df2 (commonColumns df1 df2) ∧
    isPositionalMode (compare_cell_diff df1 df2 keyColumn) = true := by
  have hemp : ¬((commonColumns df1 df2).isEmpty = true) := by
    rw [List.isEmpty_iff]
    exact hc
  have hmain : compare_cell_diff df1 df2 keyColumn =
      positionalResult df1 df2 (commonColumns df1 df2) := by
    rcases hk with h | ⟨k, hk1, hk2⟩
    · subst h
      rw [compare_cell_diff]
      simp only [if_neg hemp]
    · subst hk1
      have hcont : (commonColumns df1 df2).contains k = false := by
        rw [← Bool.not_eq_true]
        intro hcc
        exact hk2 (by simpa [List.elem_iff] using hcc)
      rw [compare_cell_diff]
      simp only [if_neg hemp]
      simp [hcont]
      intro _ hmem
      exact absurd hmem hk2
  refine ⟨hmain, ?_⟩
  rw [hmain]
  rfl

/-- Witness for key_fallback_positional: key column b is in the first
table only, so the comparison runs positionally. -/
theorem key_fallback_witness :
    (commonColumns (DataFrame.mk ["a", "b"] []) (DataFrame.mk ["a"] []) ≠ [] ∧
      ((some "b" : Option String) = none ∨ ∃ k, (some "b" : Option String) = some k ∧
        k ∉ commonColumns (DataFrame.mk ["a", "b"] []) (DataFrame.mk ["a"] []))) ∧
    isPositionalMode
      (compare_cell_diff (DataFrame.mk ["a", "b"] []) (DataFrame.mk ["a"] [])
        (some "b")) = true := by
  refine ⟨⟨by decide, Or.inr ⟨"b", rfl, by decide⟩⟩, ?_⟩
  exact (key_fallback_positional (DataFrame.mk ["a", "b"] []) (DataFrame.mk ["a"] [])
    (some "b") (by decide) (Or.inr ⟨"b", rfl, by decide⟩)).2

theorem isna_eq_true_iff (v : Cell) : isna v = true ↔ v = Cell.null := by
  cases v <;> simp [isna]

/-- The ingestion dtype of a column is numeric exactly when the column is
nonempty and every cell is missing or parses as a number; in particular a
nonempty all-null column is numeric (an all-NaN float column). -/
theorem inferDtype_numeric_iff (cells : List Cell) :
    inferDtype cells = Dtype.numeric ↔
      cells ≠ [] ∧ ∀ v ∈ cells, v = Cell.null ∨ parsesAsNumber v = true := by
  rw [inferDtype]
  split_ifs with h1 h2 h3
  · simp [List.isEmpty_iff.mp h1]
  · rw [List.isEmpty_iff] at h1
    constructor
    · intro _
      refine ⟨h1, ?_⟩
      intro v hv
      have hva := List.all_eq_true.mp h2 v hv
      rcases (by simpa using hva : isna v = true ∨ parsesAsNumber v = true) with h | h
      · exact Or.inl ((isna_eq_true_iff v).mp h)
      · exact Or.inr h
    · intro _
      rfl
  · rw [List.isEmpty_iff] at h1
    constructor
    · intro hcon
      exact absurd hcon (by decide)
    · rintro ⟨_, hall⟩
      refine absurd (List.all_eq_true.mpr ?_) h2
      intro v hv
      rcases hall v hv with h | h
      · simp [h, isna]
      · simp [h]
  · rw [List.isEmpty_iff] at h1
    constructor
    · intro hcon
      exact absurd hcon (by decide)
    · rintro ⟨_, hall⟩
      refine absurd (List.all_eq_true.mpr ?_) h2
      intro v hv
      rcases hall v hv with h | h
      · simp [h, isna]
      · simp [h]

/-- Counterexample to C5 as stated: a one-row column holding only a null
cell is counted as numeric on both sides and kept in the common numeric
intersection, so compare_stats returns it instead of excluding it. -/
theorem all_null_numeric_cex :
    (∀ v ∈ columnCells (DataFrame.mk ["a"] [[Cell.null]]) "a", v = Cell.null) ∧
    commonNumericColumns (DataFrame.mk ["a"] [[Cell.null]])
      (DataFrame.mk ["a"] [[Cell.null]]) = ["a"] ∧
    compare_stats (DataFrame.mk ["a"] [[Cell.null]])
      (DataFrame.mk ["a"] [[Cell.null]]) = some ["a"] := by decide

/-- C5 (amended): the columns a compare_stats run considers numeric on a
side are exactly the columns of a table with at least one row in which
every cell is null or parses as a number; a nonempty all-null column is
numeric (it ingests as an all-NaN float column) and participates in the
common intersection, which is what compare_stats returns (none exactly
when it is empty). -/
theorem numeric_columns_characterization :
    (∀ (df : DataFrame) (c : String),
      c ∈ numericColumns df ↔
        c ∈ df.cols ∧ columnCells df c ≠ [] ∧
          ∀ v ∈ columnCells df c, v = Cell.null ∨ parsesAsNumber v = true) ∧
    (∀ (df1 df2 : DataFrame) (c : String),
      c ∈ commonNumericColumns df1 df2 ↔
        c ∈ numericColumns df1 ∧ c ∈ numericColumns df2) ∧
    (∀ df1 df2 : DataFrame,
      compare_stats df1 df2 = none ↔ commonNumericColumns df1 df2 = []) ∧
    (∀ (df1 df2 : DataFrame) (l : List String),
      compare_stats df1 df2 = some l → l = commonNumericColumns df1 df2) := by
  refine ⟨?_, ?_, ?_, ?_⟩
  · intro df c
    rw [numericColumns, List.mem_filter]
    simp only [setOfCols, List.mem_dedup, beq_iff_eq, inferDtype_numeric_iff]
  · intro df1 df2 c
    rw [commonNumericColumns, mem_sortStrings, List.mem_filter]
    simp [List.elem_iff]
  · intro df1 df2
    rw [compare_stats]
    split_ifs with h
    · simp [List.isEmpty_iff.mp h]
    · rw [List.isEmpty_iff] at h
      simp [h]
  · intro df1 df2 l
    rw [compare_stats]
    split_ifs with h
    · simp
    · intro hs
      exact (Option.some_inj.mp hs).symm

/-- Counterexample to C8 as stated: comparing the column-less table (an
empty sheet) against itself hits the no-common-columns error, so the
self comparison does not produce a row match covering all rows. -/
theorem self_compare_empty_cex : ¬ selfCompareOk (DataFrame.mk [] []) := by
  intro h
  have h3 := h.2.2.1
  have he : compare_cell_diff (DataFrame.mk [] []) (DataFrame.mk [] []) none =
      CellDiffResult.error "No common columns to compare." := by decide
  rw [he] at h3
  exact CellDiffResult.noConfusion h3

/-- C8 (amended): comparing a table with at least one column against
itself yields empty only-column sets, a positional result pairing every
row with itself and reporting no changes and no extras, and, on any
usable key column, a key mode result with every key common and no
changes. -/
theorem self_compare_identity (A : DataFrame) (h : A.cols ≠ []) : selfCompareOk A := by
  have hcols : (compare_columns A A).only_in_first = [] := by
    show sortStrings ((setOfCols A).filter (fun c => !(A.cols.contains c))) = []
    have hf : (setOfCols A).filter (fun c => !(A.cols.contains c)) = [] := by
      refine List.filter_eq_nil_iff.mpr ?_
      intro c hc
      simpa [setOfCols] using hc
    rw [hf]
    rfl
  have hcommon : commonColumns A A ≠ [] := by
    obtain ⟨c, hc⟩ := List.exists_mem_of_ne_nil A.cols h
    have hmem : c ∈ commonColumns A A := mem_commonColumns.mpr ⟨hc, hc⟩
    intro hn
    rw [hn] at hmem
    exact List.not_mem_nil c hmem
  have hemp : ¬((commonColumns A A).isEmpty = true) := by
    rw [List.isEmpty_iff]
    exact hcommon
  have hch : posChanges A A (commonColumns A A) = [] := by
    rw [posChanges]
    refine List.flatMap_eq_nil_iff.mpr ?_
    intro i _
    refine List.filterMap_eq_nil_iff.mpr ?_
    intro c _
    simp
  have hex : extraRows A (commonColumns A A) A.rows.length = [] := by
    simp [extraRows]
  have hpos : compare_cell_diff A A none =
      CellDiffResult.positional A.rows.length [] [] [] := by
    rw [compare_cell_diff]
    simp only [if_neg hemp]
    simp [positionalResult, Nat.min_self, hch, hex]
  refine ⟨hcols, hcols, hpos, ?_⟩
  intro key hne hmem
  have hcont : (commonColumns A A).contains key = true := by
    simpa [List.elem_iff] using hmem
  have honly : keysOnlyFirst A A key = [] := by
    rw [keysOnlyFirst]
    have hf : (keysList A key).filter (fun k => !((keysList A key).contains k)) = [] := by
      refine List.filter_eq_nil_iff.mpr ?_
      intro k hk
      simpa using hk
    rw [hf]
    rfl
  have honly2 : keysOnlySecond A A key = [] := by
    rw [keysOnlySecond]
    have hf : (keysList A key).filter (fun k => !((keysList A key).contains k)) = [] := by
      refine List.filter_eq_nil_iff.mpr ?_
      intro k hk
      simpa using hk
    rw [hf]
    rfl
  have hrows : rowsOnlyFirst A A key = [] := by
    rw [rowsOnlyFirst, honly]
    simp
  have hrows2 : rowsOnlySecond A A key = [] := by
    rw [rowsOnlySecond, honly2]
    simp
  have hchg : keyedChanges A A key = [] := by
    rw [keyedChanges]
    refine List.flatMap_eq_nil_iff.mpr ?_
    intro k _
    refine List.filterMap_eq_nil_iff.mpr ?_
    intro c _
    simp [keyedCellChange]
  have hcnt : (commonKeys A A key).length = (keysList A key).length := by
    rw [commonKeys]
    have hf : (keysList A key).filter (fun k => (keysList A key).contains k) =
        keysList A key := by
      refine List.filter_eq_self.mpr ?_
      intro k hk
      simpa using hk
    rw [hf]
    exact (List.perm_insertionSort _ _).length_eq
  rw [compare_cell_diff]
  simp only [if_neg hemp]
  rw [if_pos (by simp [hne, hmem])]
  rw [keyedResult, hrows, hrows2, hchg, hcnt, honly, honly2]
  rfl

/-- Witness for self_compare_identity on a one-column one-row table. -/
theorem self_compare_witness :
    (DataFrame.mk ["ID"] [[Cell.int 1]]).cols ≠ [] ∧
    selfCompareOk (DataFrame.mk ["ID"] [[Cell.int 1]]) :=
  ⟨by decide, self_compare_identity (DataFrame.mk ["ID"] [[Cell.int 1]]) (by decide)⟩

theorem store_write_preserved {α : Type} (h : List α) (x y u v d : α) (id : Nat)
    (hid : id < h.length) :
    ((((h ++ [x]) ++ [y]).set h.length u).set (h ++ [x]).length v).getD id d =
      h.getD id d := by
  have h1 : id < (h ++ [x]).length := by
    rw [List.length_append]
    omega
  have hne1 : (h ++ [x]).length ≠ id := by
    rw [List.length_append]
    omega
  have hne2 : h.length ≠ id := by omega
  rw [List.getD_eq_getElem?_getD, List.getD_eq_getElem?_getD,
    List.getElem?_set_ne hne1, List.getElem?_set_ne hne2,
    List.getElem?_append, if_pos h1, List.getElem?_append, if_pos hid]

/-- C9: none of the four comparator methods changes a stored table: every
frame the store held before the call is still held, with the same columns,
rows and cell values, after it.  compare_columns and compare_shape only
read; compare_cell_diff and compare_stats copy first and write only the
fresh copies. -/
theorem comparators_preserve_inputs (h : List DataFrame) (i j id : Nat)
    (keyColumn : Option String) (hid : id < h.length) :
    heapGet (compare_columns_method h i j).2 id = heapGet h id ∧
    heapGet (compare_shape_method h i j).2 id = heapGet h id ∧
    heapGet (compare_cell_diff_method h i j keyColumn).2 id = heapGet h id ∧
    heapGet (compare_stats_method h i j).2 id = heapGet h id := by
  refine ⟨rfl, rfl, ?_, ?_⟩
  · simp only [compare_cell_diff_method, heapGet]
    exact store_write_preserved h _ _ _ _ _ id hid
  · simp only [compare_stats_method, heapGet]
    exact store_write_preserved h _ _ _ _ _ id hid

/-- Witness for comparators_preserve_inputs on a one-frame store. -/
theorem comparators_preserve_witness :
    0 < ([DataFrame.mk ["a"] [[Cell.int 1]]] : List DataFrame).length ∧
    heapGet (compare_cell_diff_method [DataFrame.mk ["a"] [[Cell.int 1]]] 0 0 none).2 0 =
      heapGet [DataFrame.mk ["a"] [[Cell.int 1]]] 0 :=
  ⟨by decide,
    (comparators_preserve_inputs [DataFrame.mk ["a"] [[Cell.int 1]]] 0 0 0 none
      (by decide)).2.2.1⟩

/-- C10: the textual canonicalization renders a null cell as the string
nan, so a text cell literally holding nan compares equal to a null cell:
in key mode the NaN guard does not apply (one side is a text value) and
the str() images agree, and in positional mode the str() casts agree, so
neither mode emits a change record for the column. -/
theorem nan_text_equals_null :
    cellStr Cell.null = "nan" ∧
    compare_cell_diff (DataFrame.mk ["ID", "v"] [[Cell.int 1, Cell.text "nan"]])
      (DataFrame.mk ["ID", "v"] [[Cell.int 1, Cell.null]]) (some "ID") =
      CellDiffResult.keyed "ID" [] [] [] 1 0 0 ∧
    compare_cell_diff (DataFrame.mk ["ID", "v"] [[Cell.int 1, Cell.text "nan"]])
      (DataFrame.mk ["ID", "v"] [[Cell.int 1, Cell.null]]) none =
      CellDiffResult.positional 1 [] [] [] := by decide

theorem getD_map_indexOf {α β : Type} [BEq α] [LawfulBEq α] (f : α → β) (d : β)
    {c : α} {l : List α} (hc : c ∈ l) :
    (l.map f).getD (l.indexOf c) d = f c := by
  induction l with
  | nil => cases hc
  | cons a l ih =>
    rw [List.indexOf_cons]
    by_cases h : a == c
    · have : a = c := eq_of_beq h
      simp [h, this]
    · have hcl : c ∈ l := by
        rcases List.mem_cons.mp hc with h2 | h2
        · exact absurd (beq_iff_eq.mpr h2.symm) h
        · exact h2
      simp only [List.map_cons, h, cond_false]
      exact ih hcl

/-- The cell the positional comparison reads from the truncated projected
frame at (i, c) is the cell of the original table at row i, column c. -/
theorem projCell_eq_cellAt (df : DataFrame) (commonList : List String) (m i : Nat)
    (c : String) (hi : i < m) (him : m ≤ df.rows.length) (hc : c ∈ commonList) :
    projCell df commonList m i c = cellAt df i c := by
  have hilen : i < df.rows.length := lt_of_lt_of_le hi him
  have h1 : (truncatedProjection df commonList m).getD i [] =
      projectRow df commonList (df.rows.getD i []) := by
    rw [truncatedProjection, List.getD_eq_getElem?_getD, List.getElem?_take,
      if_pos hi, List.getElem?_map, List.getElem?_eq_getElem hilen]
    rw [List.getD_eq_getElem?_getD, List.getElem?_eq_getElem hilen]
    rfl
  rw [projCell, h1, projectRow, cellAt]
  exact getD_map_indexOf _ _ hc

theorem extraRows_eq_drop (df : DataFrame) (commonList : List String) (m : Nat) :
    extraRows df commonList m = (df.rows.map (projectRow df commonList)).drop m := by
  rw [extraRows]
  split_ifs with h
  · rfl
  · symm
    apply List.drop_eq_nil_of_le
    rw [List.length_map]
    omega

/-- Membership in the positional change list: a change record is emitted
exactly for row indices below the common length and common columns whose
original cells disagree textually, and it carries those original cells. -/
theorem mem_posChanges (df1 df2 : DataFrame) (chg : PosChange) :
    chg ∈ posChanges df1 df2 (commonColumns df1 df2) ↔
      (chg.row < min df1.rows.length df2.rows.length ∧
       chg.column ∈ commonColumns df1 df2 ∧
       chg.firstValue = cellAt df1 chg.row chg.column ∧
       chg.secondValue = cellAt df2 chg.row chg.column ∧
       cellStr (cellAt df1 chg.row chg.column) ≠
         cellStr (cellAt df2 chg.row chg.column)) := by
  simp only [posChanges, List.mem_flatMap, List.mem_filterMap, List.mem_range]
  constructor
  · rintro ⟨i, hi, c, hcmem, hsome⟩
    have hv1 : projCell df1 (commonColumns df1 df2) (min df1.rows.length df2.rows.length) i c =
        cellAt df1 i c :=
      projCell_eq_cellAt df1 _ _ i c hi (Nat.min_le_left _ _) hcmem
    have hv2 : projCell df2 (commonColumns df1 df2) (min df1.rows.length df2.rows.length) i c =
        cellAt df2 i c :=
      projCell_eq_cellAt df2 _ _ i c hi (Nat.min_le_right _ _) hcmem
    rw [hv1, hv2] at hsome
    by_cases hne : cellStr (cellAt df1 i c) != cellStr (cellAt df2 i c)
    · rw [if_pos hne] at hsome
      have hchg := Option.some_inj.mp hsome
      rw [← hchg]
      exact ⟨hi, hcmem, rfl, rfl, by simpa using hne⟩
    · rw [if_neg hne] at hsome
      exact absurd hsome (by simp)
  · rintro ⟨hi, hcmem, hv1, hv2, hne⟩
    refine ⟨chg.row, hi, chg.column, hcmem, ?_⟩
    rw [projCell_eq_cellAt df1 _ _ _ _ hi (Nat.min_le_left _ _) hcmem,
      projCell_eq_cellAt df2 _ _ _ _ hi (Nat.min_le_right _ _) hcmem,
      if_pos (by simpa using hne)]
    rw [← hv1, ← hv2]

/-- C6: in positional mode row i of the left table is compared with row i
of the right table for every i below the common length: a change record
exists exactly for such i and a common column whose original cells differ
textually, and it reports those cells.  The rows beyond the minimum on the
longer side come back as that side's extra rows, projected to the common
columns and in their original order. -/
theorem positional_pairing_and_extras (df1 df2 : DataFrame)
    (hc : commonColumns df1 df2 ≠ []) :
    compare_cell_diff df1 df2 none =
      CellDiffResult.positional (min df1.rows.length df2.rows.length)
        (posChanges df1 df2 (commonColumns df1 df2))
        ((df1.rows.map (projectRow df1 (commonColumns df1 df2))).drop
          (min df1.rows.length df2.rows.length))
        ((df2.rows.map (projectRow df2 (commonColumns df1 df2))).drop
          (min df1.rows.length df2.rows.length)) ∧
    (∀ chg : PosChange,
      chg ∈ posChanges df1 df2 (commonColumns df1 df2) ↔
        (chg.row < min df1.rows.length df2.rows.length ∧
         chg.column ∈ commonColumns df1 df2 ∧
         chg.firstValue = cellAt df1 chg.row chg.column ∧
         chg.secondValue = cellAt df2 chg.row chg.column ∧
         cellStr (cellAt df1 chg.row chg.column) ≠
           cellStr (cellAt df2 chg.row chg.column))) := by
  refine ⟨?_, fun chg => mem_posChanges df1 df2 chg⟩
  have hemp : ¬((commonColumns df1 df2).isEmpty = true) := by
    rw [List.isEmpty_iff]
    exact hc
  rw [compare_cell_diff]
  simp only [if_neg hemp]
  rw [positionalResult, extraRows_eq_drop, extraRows_eq_drop]

/-- Witness for positional_pairing_and_extras: tables of different
lengths, second table longer by one row. -/
theorem positional_pairing_witness :
    commonColumns (DataFrame.mk ["ID"] [[Cell.int 1]])
      (DataFrame.mk ["ID"] [[Cell.int 2], [Cell.int 3]]) ≠ [] ∧
    compare_cell_diff (DataFrame.mk ["ID"] [[Cell.int 1]])
      (DataFrame.mk ["ID"] [[Cell.int 2], [Cell.int 3]]) none =
      CellDiffResult.positional 1
        [{ row := 0, column := "ID", firstValue := Cell.int 1,
           secondValue := Cell.int 2 }]
        [] [[Cell.int 3]] := by
  refine ⟨by decide, ?_⟩
  have h := (positional_pairing_and_extras (DataFrame.mk ["ID"] [[Cell.int 1]])
    (DataFrame.mk ["ID"] [[Cell.int 2], [Cell.int 3]]) (by decide)).1
  exact h.trans (by decide)

theorem bothNan_iff (v1 v2 : Cell) :
    bothNan v1 v2 = true ↔ v1 = Cell.null ∧ v2 = Cell.null := by
  cases v1 <;> cases v2 <;> simp [bothNan, isTextCell, isna]

theorem keyedCellChange_eq_some_iff (k : Cell) (c : String) (v1 v2 : Cell)
    (chg : KeyChange) :
    keyedCellChange k c v1 v2 = some chg ↔
      ¬(v1 = Cell.null ∧ v2 = Cell.null) ∧ cellStr v1 ≠ cellStr v2 ∧
        chg = KeyChange.mk k c v1 v2 := by
  rw [keyedCellChange]
  split_ifs with hcond
  · obtain ⟨h1, h2⟩ :=
      (by simpa using hcond : bothNan v1 v2 = false ∧ cellStr v1 ≠ cellStr v2)
    constructor
    · intro hsome
      refine ⟨?_, h2, (Option.some_inj.mp hsome).symm⟩
      intro hnn
      rw [(bothNan_iff v1 v2).mpr hnn] at h1
      exact absurd h1 (by decide)
    · rintro ⟨_, _, hchg⟩
      rw [hchg]
  · constructor
    · intro hsome
      exact absurd hsome (by simp)
    · rintro ⟨hnn, hne, _⟩
      exfalso
      apply hcond
      have h1 : bothNan v1 v2 = false := by
        rw [← Bool.not_eq_true, bothNan_iff v1 v2]
        exact hnn
      simp [h1, hne]

/-- Membership in the key mode change list: a change record is emitted
exactly for a common key and a compared column whose first-occurrence row
cells are not both null and disagree textually, and it carries those
cells. -/
theorem mem_keyedChanges (df1 df2 : DataFrame) (key : String) (chg : KeyChange) :
    chg ∈ keyedChanges df1 df2 key ↔
      chg.key ∈ commonKeys df1 df2 key ∧ chg.column ∈ compareCols df1 df2 key ∧
      chg.firstValue = cellGet df1 (keyedRow df1 key chg.key) chg.column ∧
      chg.secondValue = cellGet df2 (keyedRow df2 key chg.key) chg.column ∧
      ¬(chg.firstValue = Cell.null ∧ chg.secondValue = Cell.null) ∧
      cellStr chg.firstValue ≠ cellStr chg.secondValue := by
  simp only [keyedChanges, List.mem_flatMap, List.mem_filterMap,
    keyedCellChange_eq_some_iff]
  constructor
  · rintro ⟨k, hk, c, hcc, hnn, hne, hchg⟩
    subst hchg
    exact ⟨hk, hcc, rfl, rfl, hnn, hne⟩
  · rintro ⟨hk, hcc, hv1, hv2, hnn, hne⟩
    refine ⟨chg.key, hk, chg.column, hcc, ?_, ?_, ?_⟩
    · rw [← hv1, ← hv2]
      exact hnn
    · rw [← hv1, ← hv2]
      exact hne
    · rw [← hv1, ← hv2]

/-- C2: in both comparison modes, a matched row pair whose cells in a
compared column are both null contributes no change record for that
column, and otherwise a change record for the pair and column exists
exactly when the canonical textual representations of the two cells
differ. -/
theorem null_null_and_textual_equality (df1 df2 : DataFrame)
    (hc : commonColumns df1 df2 ≠ []) :
    (compare_cell_diff df1 df2 none =
      positionalResult df1 df2 (commonColumns df1 df2)) ∧
    (∀ i c, i < min df1.rows.length df2.rows.length → c ∈ commonColumns df1 df2 →
      ((cellAt df1 i c = Cell.null ∧ cellAt df2 i c = Cell.null) →
        ∀ chg ∈ posChanges df1 df2 (commonColumns df1 df2),
          ¬(chg.row = i ∧ chg.column = c)) ∧
      (PosChange.mk i c (cellAt df1 i c) (cellAt df2 i c) ∈
          posChanges df1 df2 (commonColumns df1 df2) ↔
        cellStr (cellAt df1 i c) ≠ cellStr (cellAt df2 i c))) ∧
    (∀ key, key ≠ "" → key ∈ commonColumns df1 df2 →
      compare_cell_diff df1 df2 (some key) = keyedResult df1 df2 key ∧
      ∀ k c, k ∈ commonKeys df1 df2 key → c ∈ compareCols df1 df2 key →
        ((cellGet df1 (keyedRow df1 key k) c = Cell.null ∧
          cellGet df2 (keyedRow df2 key k) c = Cell.null) →
          ∀ chg ∈ keyedChanges df1 df2 key, ¬(chg.key = k ∧ chg.column = c)) ∧
        (KeyChange.mk k c (cellGet df1 (keyedRow df1 key k) c)
            (cellGet df2 (keyedRow df2 key k) c) ∈ keyedChanges df1 df2 key ↔
          (¬(cellGet df1 (keyedRow df1 key k) c = Cell.null ∧
             cellGet df2 (keyedRow df2 key k) c = Cell.null) ∧
           cellStr (cellGet df1 (keyedRow df1 key k) c) ≠
             cellStr (cellGet df2 (keyedRow df2 key k) c)))) := by
  have hemp : ¬((commonColumns df1 df2).isEmpty = true) := by
    rw [List.isEmpty_iff]
    exact hc
  refine ⟨?_, ?_, ?_⟩
  · rw [compare_cell_diff]
    simp only [if_neg hemp]
  · intro i c hi hcmem
    constructor
    · rintro ⟨hn1, hn2⟩ chg hchg ⟨hrow, hcol⟩
      have hch := (mem_posChanges df1 df2 chg).mp hchg
      have hne := hch.2.2.2.2
      rw [hrow, hcol, hn1, hn2] at hne
      exact hne rfl
    · rw [mem_posChanges]
      constructor
      · intro h
        exact h.2.2.2.2
      · intro hne
        exact ⟨hi, hcmem, rfl, rfl, hne⟩
  · intro key hne0 hmem0
    constructor
    · rw [compare_cell_diff]
      simp only [if_neg hemp]
      rw [if_pos (by simp [hne0, hmem0])]
    · intro k c hk hcc
      constructor
      · rintro ⟨hn1, hn2⟩ chg hchg ⟨hkey, hcol⟩
        have hch := (mem_keyedChanges df1 df2 key chg).mp hchg
        have hnn := hch.2.2.2.2.1
        have hv1 := hch.2.2.1
        have hv2 := hch.2.2.2.1
        rw [hkey, hcol] at hv1 hv2
        rw [hv1, hv2, hn1, hn2] at hnn
        exact hnn ⟨rfl, rfl⟩
      · rw [mem_keyedChanges]
        constructor
        · intro h
          exact ⟨h.2.2.2.2.1, h.2.2.2.2.2⟩
        · rintro ⟨hnn, hne⟩
          exact ⟨hk, hcc, rfl, rfl, hnn, hne⟩

/-- Witness for null_null_and_textual_equality: both tables share the
column v, the first row pair holds null on both sides (no change), the
second differs textually (one change in each mode). -/
theorem null_null_witness :
    commonColumns
      (DataFrame.mk ["ID", "v"] [[Cell.int 1, Cell.null], [Cell.int 2, Cell.int 3]])
      (DataFrame.mk ["ID", "v"] [[Cell.int 1, Cell.null], [Cell.int 2, Cell.int 4]])
      ≠ [] ∧
    compare_cell_diff
      (DataFrame.mk ["ID", "v"] [[Cell.int 1, Cell.null], [Cell.int 2, Cell.int 3]])
      (DataFrame.mk ["ID", "v"] [[Cell.int 1, Cell.null], [Cell.int 2, Cell.int 4]])
      none =
      positionalResult
        (DataFrame.mk ["ID", "v"] [[Cell.int 1, Cell.null], [Cell.int 2, Cell.int 3]])
        (DataFrame.mk ["ID", "v"] [[Cell.int 1, Cell.null], [Cell.int 2, Cell.int 4]])
        (commonColumns
          (DataFrame.mk ["ID", "v"] [[Cell.int 1, Cell.null], [Cell.int 2, Cell.int 3]])
          (DataFrame.mk ["ID", "v"] [[Cell.int 1, Cell.null], [Cell.int 2, Cell.int 4]])) := by
  refine ⟨by decide, ?_⟩
  exact (null_null_and_textual_equality
    (DataFrame.mk ["ID", "v"] [[Cell.int 1, Cell.null], [Cell.int 2, Cell.int 3]])
    (DataFrame.mk ["ID", "v"] [[Cell.int 1, Cell.null], [Cell.int 2, Cell.int 4]])
    (by decide)).1
